import Mathlib

/-!
Shallow embedding of the field-validation layer of `gwascatalog.sumstat`
(files `types.py`, `_type_funcs.py`, `enums.py`): chromosome remapping,
allele-alphabet checking, missing-value coercion and the composite
variant-identifier validator, together with the pydantic field pipelines
(before-validators, `Field` constraints, after-validators) that `types.py`
attaches to its annotated types.

Modelling conventions:
* Python `int(string)` is modelled by `parsePyInt`: strip whitespace, an
  optional sign, then ASCII decimal digits optionally separated by single
  underscores (Python's numeric-literal underscore rule).  Non-ASCII decimal
  digits, accepted by CPython, are out of scope; no input in this code base
  uses them.
* `chromosome_to_integer` observes its argument only through `str(...)`
  (both `str(chromosome).strip()` and the f-string in the error message),
  so the embedding takes the `str` image of the raw value as its argument.
* Python exceptions become `Except`: the error payload carries the message
  (for `ValueError` messages built from strings) or the structured data the
  message is built from (the bad-character set of `is_valid_sequence`).
* In `validate_variant_id` the source calls the `Annotated` aliases
  `Chromosome`, `BasePairLocation` and `EffectAllele` directly.  Calling an
  `Annotated[T, ...]` alias in Python delegates to the origin type `T`
  (`typing._GenericAlias.__call__`), so those calls are `int(chrom)`,
  `int(pos)`, `str(ref)`, `str(alt)`: none of the pydantic metadata
  (before/after validators, `ge`/`gt` bounds) runs.  The embedding is
  faithful to that behaviour.
-/

deriving instance DecidableEq for Except

/-- Python `str.strip()`: drop leading and trailing whitespace (ASCII
whitespace modelled; implemented structurally over the character list). -/
def pyStrip (s : String) : String :=
  String.mk (((s.data.dropWhile Char.isWhitespace).reverse.dropWhile
    Char.isWhitespace).reverse)

/-- Value of an ASCII digit character. -/
def digitVal (c : Char) : Nat := c.toNat - 48

/-- Digits after the first one, allowing a single underscore between two
digits, as in Python integer literals ("1_2" parses, "1__2" and "1_" do
not). -/
def pyDigitsTail : List Char → Nat → Option Nat
  | [], acc => Option.some acc
  | '_' :: rest, acc =>
    match rest with
    | [] => Option.none
    | c :: rest2 =>
      if c.isDigit then pyDigitsTail rest2 (acc * 10 + digitVal c) else Option.none
  | c :: rest, acc =>
    if c.isDigit then pyDigitsTail rest (acc * 10 + digitVal c) else Option.none

/-- One or more digits with optional single underscores between them. -/
def pyDigits : List Char → Option Nat
  | [] => Option.none
  | c :: rest => if c.isDigit then pyDigitsTail rest (digitVal c) else Option.none

/-- Python `int(s)` for a base-10 string: strip whitespace, optional sign,
then an underscore-separated digit run; `Option.none` models `ValueError`. -/
def parsePyInt (s : String) : Option Int :=
  match (pyStrip s).data with
  | '+' :: rest => (pyDigits rest).map (fun n => (n : Int))
  | '-' :: rest => (pyDigits rest).map (fun n => -(n : Int))
  | l => (pyDigits l).map (fun n => (n : Int))

/-- CHROMOSOME_MAP from types.py: the symbolic remap table
X to 23, Y to 24, MT to 25 (case-sensitive, exact match). -/
def CHROMOSOME_MAP (s : String) : Option Int :=
  if s = "X" then Option.some 23
  else if s = "Y" then Option.some 24
  else if s = "MT" then Option.some 25
  else Option.none

/-- chromosome_to_integer from types.py.  The argument is the `str` image of
the raw value (the Python function uses the value only through `str`):
strip, try `int(...)`, fall back to the symbolic map, otherwise raise
`ValueError` carrying the original raw input. -/
def chromosome_to_integer (chromosome : String) : Except String Int :=
  let chrom_string := pyStrip chromosome
  match parsePyInt chrom_string with
  | Option.some chrom => Except.ok chrom
  | Option.none =>
    match CHROMOSOME_MAP chrom_string with
    | Option.some chrom => Except.ok chrom
    | Option.none => Except.error ("Invalid chromosome " ++ chromosome)

/-- Pydantic field pipeline for `Chromosome = Annotated[int, Field(ge=1,
le=26), BeforeValidator(chromosome_to_integer)]`: the before-validator runs
first, then the field layer applies the range bound. -/
def validateChromosome (raw : String) : Except String Int :=
  match chromosome_to_integer raw with
  | Except.error e => Except.error e
  | Except.ok v =>
    if 1 ≤ v ∧ v ≤ 26 then Except.ok v
    else Except.error ("Chromosome out of range: " ++ toString v)

/-- VALID_ALLELES from types.py: the allele alphabet as a set. -/
def VALID_ALLELES : Finset Char := {'A', 'C', 'T', 'G'}

/-- is_valid_sequence from types.py: `bad_allele = set(allele) -
VALID_ALLELES`; if the difference is non-empty raise `ValueError` carrying
that set, else return the input unchanged. -/
def is_valid_sequence (allele : String) : Except (Finset Char) String :=
  let bad_allele := allele.data.toFinset \ VALID_ALLELES
  if bad_allele ≠ ∅ then Except.error bad_allele else Except.ok allele

/-- Error cases of the `EffectAllele` field pipeline: the `min_length=1`
constraint or the after-validator's bad-character set. -/
inductive AlleleError where
  | tooShort : AlleleError
  | invalidAllele : Finset Char → AlleleError
deriving DecidableEq

/-- Pydantic field pipeline for `EffectAllele = Annotated[str,
Field(min_length=1), AfterValidator(is_valid_sequence)]`: the field's
min-length constraint runs before the after-validator. -/
def validateEffectAllele (raw : String) : Except AlleleError String :=
  if raw.length < 1 then Except.error AlleleError.tooShort
  else
    match is_valid_sequence raw with
    | Except.ok v => Except.ok v
    | Except.error bad => Except.error (AlleleError.invalidAllele bad)

/-- Python scalar values that reach `coerce_na_to_none`: strings, integers
or the null value.  A non-string never compares equal to a string token. -/
inductive PyScalar where
  | str : String → PyScalar
  | int : Int → PyScalar
  | none : PyScalar
deriving DecidableEq, Repr

/-- coerce_na_to_none from types.py: the literal tokens "NA" and "#NA"
become `None`; everything else passes through unchanged. -/
def coerce_na_to_none (x : PyScalar) : PyScalar :=
  if x = PyScalar.str "NA" then PyScalar.none
  else if x = PyScalar.str "#NA" then PyScalar.none
  else x

/-- Pydantic field pipeline for `EffectAlleleFrequency = Annotated[float,
Field(ge=0, le=0)]`, over exact rationals: both bounds of the (degenerate)
closed interval are checked. -/
def validateEffectAlleleFrequency (v : Rat) : Except String Rat :=
  if 0 ≤ v then
    if v ≤ 0 then Except.ok v
    else Except.error "Input should be less than or equal to 0"
  else Except.error "Input should be greater than or equal to 0"

/-- Python `s.split("_", maxsplit)` on the character list: split on the
first `maxsplit` underscores, the rest of the string (later underscores
included) becomes the final part. -/
def pySplitAux : List Char → Nat → List Char → List String
  | [], _, acc => [String.mk acc.reverse]
  | c :: rest, n, acc =>
    if c = '_' then
      match n with
      | 0 => pySplitAux rest 0 (c :: acc)
      | m + 1 => String.mk acc.reverse :: pySplitAux rest m []
    else pySplitAux rest n (c :: acc)

/-- Python `s.split("_", maxsplit)`. -/
def pySplitUnd (s : String) (maxsplit : Nat) : List String :=
  pySplitAux s.data maxsplit []

/-- Joining with a single underscore: the left inverse of splitting, used
to state that the split loses no characters. -/
def joinUnd : List (List Char) → List Char
  | [] => []
  | [l] => l
  | l :: l2 :: ls => l ++ '_' :: joinUnd (l2 :: ls)

/-- validate_variant_id from types.py: split on "_" with maxsplit 3; if not
exactly 4 parts raise `ValueError` (message with the raw id and the
delimiter, no count).  Otherwise `Chromosome(chrom)` and
`BasePairLocation(pos)` are `int(...)` calls (raising on parse failure) and
`EffectAllele(ref)` / `EffectAllele(alt)` are `str(...)` calls (never
raising); on success the original string is returned unchanged. -/
def validate_variant_id (variant_id : String) : Except String String :=
  if (pySplitUnd variant_id 3).length ≠ 4 then
    Except.error ("Invalid variant_id: " ++ variant_id ++ " (bad delimiters _)")
  else
    match pySplitUnd variant_id 3 with
    | chrom :: pos :: _ref :: _alt :: _ =>
      match parsePyInt chrom with
      | Option.none =>
        Except.error ("invalid literal for int() with base 10: " ++ chrom)
      | Option.some _ =>
        match parsePyInt pos with
        | Option.none =>
          Except.error ("invalid literal for int() with base 10: " ++ pos)
        | Option.some _ => Except.ok variant_id
    | _ => Except.error ("Invalid variant_id: " ++ variant_id ++ " (bad delimiters _)")

/-- Splitting on every underscore, for the `VariantId` regex model. -/
def splitAllUnd : List Char → List (List Char)
  | [] => [[]]
  | c :: rest =>
    let r := splitAllUnd rest
    if c = '_' then [] :: r
    else
      match r with
      | [] => [[c]]
      | h :: t => (c :: h) :: t

/-- Token accepted by the regex group `([0-9]\x7b1,2\x7d|X|Y|MT)`. -/
def isChromTok (l : List Char) : Bool :=
  (l.all Char.isDigit && (l.length = 1 || l.length = 2))
  || l = ['X'] || l = ['Y'] || l = ['M', 'T']

/-- Token accepted by `[ACGT]+`. -/
def isACGTRun (l : List Char) : Bool :=
  !l.isEmpty && l.all (fun c => c = 'A' || c = 'C' || c = 'G' || c = 'T')

/-- The anchored `VariantId` field regex
`([0-9]\x7b1,2\x7d|X|Y|MT)_[0-9]+_[ACGT]+_[ACGT]+`, decomposed at the
underscores (no alternative of any component contains an underscore, so a
match is exactly four underscore-separated component matches). -/
def matchesVariantIdRegex (s : String) : Bool :=
  match splitAllUnd s.data with
  | [a, b, c, d] =>
    isChromTok a && (!b.isEmpty && b.all Char.isDigit) && isACGTRun c && isACGTRun d
  | _ => false

/-- Pydantic field pipeline for `VariantId = Annotated[str, Field(pattern),
AfterValidator(validate_variant_id)]`: the pattern constraint runs before
the after-validator. -/
def validateVariantIdField (raw : String) : Except String String :=
  if matchesVariantIdRegex raw then validate_variant_id raw
  else Except.error "String should match pattern"

namespace TypeFuncs

/-- CHROMOSOME_MAP as duplicated in _type_funcs.py. -/
def CHROMOSOME_MAP (s : String) : Option Int :=
  if s = "X" then Option.some 23
  else if s = "Y" then Option.some 24
  else if s = "MT" then Option.some 25
  else Option.none

/-- chromosome_to_integer as duplicated in _type_funcs.py. -/
def chromosome_to_integer (chromosome : String) : Except String Int :=
  let chrom_string := pyStrip chromosome
  match parsePyInt chrom_string with
  | Option.some chrom => Except.ok chrom
  | Option.none =>
    match TypeFuncs.CHROMOSOME_MAP chrom_string with
    | Option.some chrom => Except.ok chrom
    | Option.none => Except.error ("Invalid chromosome " ++ chromosome)

/-- VALID_ALLELES as duplicated in _type_funcs.py. -/
def VALID_ALLELES : Finset Char := {'A', 'C', 'T', 'G'}

/-- is_valid_sequence as duplicated in _type_funcs.py. -/
def is_valid_sequence (allele : String) : Except (Finset Char) String :=
  let bad_allele := allele.data.toFinset \ TypeFuncs.VALID_ALLELES
  if bad_allele ≠ ∅ then Except.error bad_allele else Except.ok allele

/-- coerce_na_to_none as duplicated in _type_funcs.py. -/
def coerce_na_to_none (x : PyScalar) : PyScalar :=
  if x = PyScalar.str "NA" then PyScalar.none
  else if x = PyScalar.str "#NA" then PyScalar.none
  else x

end TypeFuncs

/-! ## Helper lemmas -/

/-- Chromosome normalization falls through to the error branch exactly when
neither the integer parse nor the symbolic map accepts the trimmed input;
the error carries the original raw input. -/
theorem chromosome_unmapped :
    ∀ s : String, parsePyInt (pyStrip s) = Option.none →
      CHROMOSOME_MAP (pyStrip s) = Option.none →
      chromosome_to_integer s = Except.error ("Invalid chromosome " ++ s) := by
  intro s h1 h2
  simp [chromosome_to_integer, h1, h2]

/-- Splitting always produces at least one part. -/
theorem pySplitAux_ne_nil (l : List Char) (n : Nat) (acc : List Char) :
    pySplitAux l n acc ≠ [] := by
  induction l generalizing n acc with
  | nil => simp [pySplitAux]
  | cons c rest ih =>
    by_cases hc : c = '_'
    · cases n with
      | zero => simpa [pySplitAux, hc] using ih 0 (c :: acc)
      | succ m => simp [pySplitAux, hc]
    · simpa [pySplitAux, hc] using ih n (c :: acc)

/-- Unfolding `joinUnd` on a cons with a non-empty tail. -/
theorem joinUnd_cons (x : List Char) (ys : List (List Char)) (h : ys ≠ []) :
    joinUnd (x :: ys) = x ++ '_' :: joinUnd ys := by
  cases ys with
  | nil => exact absurd rfl h
  | cons y t => rfl

/-- Splitting with a limit loses no characters: re-joining the parts with
underscores recovers the input (so any underscore beyond the limit stayed
inside the final part). -/
theorem joinUnd_pySplitAux (l : List Char) (n : Nat) (acc : List Char) :
    joinUnd ((pySplitAux l n acc).map String.data) = acc.reverse ++ l := by
  induction l generalizing n acc with
  | nil => simp [pySplitAux, joinUnd]
  | cons c rest ih =>
    by_cases hc : c = '_'
    · cases n with
      | zero =>
        rw [show pySplitAux (c :: rest) 0 acc = pySplitAux rest 0 (c :: acc) by
          simp [pySplitAux, hc]]
        rw [ih 0 (c :: acc)]
        simp
      | succ m =>
        rw [show pySplitAux (c :: rest) (m + 1) acc
            = String.mk acc.reverse :: pySplitAux rest m [] by
          simp [pySplitAux, hc]]
        rw [List.map_cons, joinUnd_cons _ _ (by simp [pySplitAux_ne_nil]),
          ih m []]
        simp [hc]
    · rw [show pySplitAux (c :: rest) n acc = pySplitAux rest n (c :: acc) by
        simp [pySplitAux, hc]]
      rw [ih n (c :: acc)]
      simp

/-- Splitting with limit `n` yields at most `n + 1` parts. -/
theorem pySplitAux_length (l : List Char) (n : Nat) (acc : List Char) :
    (pySplitAux l n acc).length ≤ n + 1 := by
  induction l generalizing n acc with
  | nil => simp [pySplitAux]
  | cons c rest ih =>
    by_cases hc : c = '_'
    · cases n with
      | zero => simpa [pySplitAux, hc] using ih 0 (c :: acc)
      | succ m =>
        have h := ih m []
        simp only [pySplitAux, hc, if_pos, List.length_cons]
        omega
    · simpa [pySplitAux, hc] using ih n (c :: acc)

/-- When the split does not give exactly 4 parts, `validate_variant_id`
fails with the fixed malformed-identifier message. -/
theorem validate_variant_id_not4 (s : String) (h : (pySplitUnd s 3).length ≠ 4) :
    validate_variant_id s
      = Except.error ("Invalid variant_id: " ++ s ++ " (bad delimiters _)") := by
  unfold validate_variant_id
  rw [if_pos h]

/-! ## Claim theorems -/

/-- Claim C1 (code bug): evaluating the code at the spec's failing inputs.
`validate_variant_id` accepts "1_0_A_G" (position 0 passes, because
`BasePairLocation(pos)` is a bare `int(pos)` call without the `gt=0`
constraint), the full `VariantId` field pipeline accepts it too (the regex
`[0-9]+` matches "0"), "1_12345_A_N" passes `validate_variant_id` (the
`EffectAllele(...)` calls are bare `str(...)`, no alphabet check),
"99_1_A_G" passes (no 1-26 range check on part 1), and "X_1_A_G" errors
(no symbolic remap: `int("X")` raises), all contradicting the claim that
each part runs the corresponding field validator. -/
theorem variantId_subvalidators_not_applied :
    validate_variant_id "1_0_A_G" = Except.ok "1_0_A_G"
    ∧ validateVariantIdField "1_0_A_G" = Except.ok "1_0_A_G"
    ∧ validate_variant_id "1_12345_A_N" = Except.ok "1_12345_A_N"
    ∧ validate_variant_id "99_1_A_G" = Except.ok "99_1_A_G"
    ∧ validate_variant_id "X_1_A_G"
        = Except.error "invalid literal for int() with base 10: X" := by
  refine ⟨by decide, by decide, by decide, by decide, by decide⟩

/-- Claim C2: the `EffectAlleleFrequency` field bound `ge=0, le=0` is
degenerate: a value passes validation exactly when it equals 0. -/
theorem effectAlleleFrequency_zero_iff (v : Rat) :
    validateEffectAlleleFrequency v = Except.ok v ↔ v = 0 := by
  unfold validateEffectAlleleFrequency
  split_ifs with h1 h2
  · simp [le_antisymm h2 h1]
  · simp only [reduceCtorEq, false_iff]
    intro h
    exact h2 (le_of_eq h)
  · simp only [reduceCtorEq, false_iff]
    intro h
    exact h1 (ge_of_eq h)

/-- Claim C3 (amended): the `VariantId` validator splits on underscore with
split-with-limit-3 semantics — at most 4 parts, re-joining the parts with
underscores recovers the input (so a 4th underscore stays inside the final
part, as the concrete "1_2_A_G_T" split shows) — and when the split does
not yield exactly 4 parts it fails with a MalformedIdentifier error that
carries the raw identifier and names the delimiter (but not the delimiter
count); in particular "1_12345_A" fails this way. -/
theorem variantId_split_semantics :
    (∀ s : String, joinUnd ((pySplitUnd s 3).map String.data) = s.data)
    ∧ (∀ s : String, (pySplitUnd s 3).length ≤ 4)
    ∧ pySplitUnd "1_2_A_G_T" 3 = ["1", "2", "A", "G_T"]
    ∧ (∀ s : String, (pySplitUnd s 3).length ≠ 4 →
        validate_variant_id s
          = Except.error ("Invalid variant_id: " ++ s ++ " (bad delimiters _)"))
    ∧ validate_variant_id "1_12345_A"
        = Except.error "Invalid variant_id: 1_12345_A (bad delimiters _)" := by
  refine ⟨?_, ?_, by decide, validate_variant_id_not4, by decide⟩
  · intro s
    simpa using joinUnd_pySplitAux s.data 3 []
  · intro s
    exact pySplitAux_length s.data 3 []

/-- Claim C3 witness: the general malformed-identifier branch applied to the
empty string (one part). -/
theorem variantId_split_semantics_witness :
    validate_variant_id ""
      = Except.error ("Invalid variant_id: " ++ "" ++ " (bad delimiters _)") :=
  variantId_split_semantics.2.2.2.1 "" (by decide)

/-- Claim C3 counterexample: the claim as stated says the malformed error
includes the delimiter count found.  For the input "A" the count found is 0
(one part), yet the raised message contains no digit character at all, so no
count is included. -/
theorem variantId_malformed_message_has_no_digits :
    validate_variant_id "A" = Except.error "Invalid variant_id: A (bad delimiters _)"
    ∧ "Invalid variant_id: A (bad delimiters _)".data.filter Char.isDigit = [] := by
  exact ⟨by decide, by decide⟩

/-- Claim C4: chromosome normalization maps the decimal strings "1".."22"
to 1..22, the symbolic tokens "X", "Y", "MT" (case-sensitive, matched after
stripping) to 23, 24, 25, and fails on every token that neither parses as
an integer nor appears in the symbolic map, with an error carrying the
original raw input. -/
theorem chromosome_normalization_spec :
    (∀ n : Nat, n < 23 → 1 ≤ n → chromosome_to_integer (toString n) = Except.ok (n : Int))
    ∧ chromosome_to_integer "X" = Except.ok 23
    ∧ chromosome_to_integer "Y" = Except.ok 24
    ∧ chromosome_to_integer "MT" = Except.ok 25
    ∧ (∀ s : String, parsePyInt (pyStrip s) = Option.none →
        CHROMOSOME_MAP (pyStrip s) = Option.none →
        chromosome_to_integer s = Except.error ("Invalid chromosome " ++ s)) := by
  refine ⟨by decide, by decide, by decide, by decide, chromosome_unmapped⟩

/-- Claim C4 witness: the universally quantified parts applied at the
concrete inputs "7" and "chr1". -/
theorem chromosome_normalization_spec_witness :
    chromosome_to_integer (toString (7 : Nat)) = Except.ok ((7 : Nat) : Int)
    ∧ chromosome_to_integer "chr1" = Except.error ("Invalid chromosome " ++ "chr1") :=
  ⟨chromosome_normalization_spec.1 7 (by decide) (by decide),
   chromosome_normalization_spec.2.2.2.2 "chr1" (by decide) (by decide)⟩

/-- Claim C5: whenever the normalizer produces an integer outside [1,26]
the Chromosome field pipeline fails (and inside the range it succeeds: the
range check is the field layer's step after the normalizer); the parseable
inputs "0", "27" and "-5" all fail. -/
theorem chromosome_field_range_check :
    (∀ (s : String) (n : Int), chromosome_to_integer s = Except.ok n →
      ¬(1 ≤ n ∧ n ≤ 26) →
      validateChromosome s = Except.error ("Chromosome out of range: " ++ toString n))
    ∧ (∀ (s : String) (n : Int), chromosome_to_integer s = Except.ok n →
      1 ≤ n → n ≤ 26 → validateChromosome s = Except.ok n)
    ∧ validateChromosome "0" = Except.error ("Chromosome out of range: " ++ toString (0 : Int))
    ∧ validateChromosome "27" = Except.error ("Chromosome out of range: " ++ toString (27 : Int))
    ∧ validateChromosome "-5" = Except.error ("Chromosome out of range: " ++ toString (-5 : Int)) := by
  refine ⟨?_, ?_, by decide, by decide, by decide⟩
  · intro s n h hn
    unfold validateChromosome
    rw [h]
    simp [hn]
  · intro s n h h1 h2
    unfold validateChromosome
    rw [h]
    simp [h1, h2]

/-- Claim C5 witness: the out-of-range branch applied at "27". -/
theorem chromosome_field_range_check_witness :
    validateChromosome "27" = Except.error ("Chromosome out of range: " ++ toString (27 : Int)) :=
  chromosome_field_range_check.1 "27" 27 (by decide) (by decide)

/-- Claim C6: any string containing a character outside the allele alphabet
fails the sequence check, and the reported bad-character set is exactly the
set difference between the input's character set and VALID_ALLELES; through
the `EffectAllele` field pipeline the same set is reported as an
InvalidAllele error. -/
theorem allele_bad_characters :
    (∀ (s : String) (c : Char), c ∈ s.data → c ∉ VALID_ALLELES →
      is_valid_sequence s = Except.error (s.data.toFinset \ VALID_ALLELES))
    ∧ (∀ (s : String) (c : Char), c ∈ s.data → c ∉ VALID_ALLELES →
      validateEffectAllele s
        = Except.error (AlleleError.invalidAllele (s.data.toFinset \ VALID_ALLELES))) := by
  have base : ∀ (s : String) (c : Char), c ∈ s.data → c ∉ VALID_ALLELES →
      is_valid_sequence s = Except.error (s.data.toFinset \ VALID_ALLELES) := by
    intro s c hc hbad
    have hmem : c ∈ s.data.toFinset \ VALID_ALLELES :=
      Finset.mem_sdiff.mpr ⟨List.mem_toFinset.mpr hc, hbad⟩
    simp only [is_valid_sequence]
    rw [if_pos (Finset.ne_empty_of_mem hmem)]
  refine ⟨base, ?_⟩
  intro s c hc hbad
  have hlen : ¬(s.length < 1) := by
    cases s with
    | mk d =>
      have hne : d ≠ [] := List.ne_nil_of_mem hc
      have hpos : 0 < d.length := List.length_pos.mpr hne
      show ¬(d.length < 1)
      omega
  unfold validateEffectAllele
  rw [if_neg hlen, base s c hc hbad]

/-- Claim C6 witness: the sequence check applied at "ACGN" and "acgt", with
the reported sets evaluated. -/
theorem allele_bad_characters_witness :
    is_valid_sequence "ACGN" = Except.error ("ACGN".data.toFinset \ VALID_ALLELES)
    ∧ "ACGN".data.toFinset \ VALID_ALLELES = {'N'}
    ∧ is_valid_sequence "acgt" = Except.error ("acgt".data.toFinset \ VALID_ALLELES)
    ∧ "acgt".data.toFinset \ VALID_ALLELES = {'a', 'c', 'g', 't'} :=
  ⟨allele_bad_characters.1 "ACGN" 'N' (by decide) (by decide), by decide,
   allele_bad_characters.1 "acgt" 'a' (by decide) (by decide), by decide⟩

/-- Claim C7: a string made only of alphabet characters passes the sequence
check and is returned unchanged (round-trip); the sequence check itself
accepts the empty string, which is rejected only by the field's
min-length-1 constraint, applied before the check. -/
theorem allele_roundtrip :
    (∀ s : String, (∀ c ∈ s.data, c ∈ VALID_ALLELES) → is_valid_sequence s = Except.ok s)
    ∧ is_valid_sequence "" = Except.ok ""
    ∧ validateEffectAllele "" = Except.error AlleleError.tooShort := by
  refine ⟨?_, by decide, by decide⟩
  intro s h
  have hempty : s.data.toFinset \ VALID_ALLELES = ∅ := by
    rw [Finset.eq_empty_iff_forall_not_mem]
    intro c hcmem
    rcases Finset.mem_sdiff.mp hcmem with ⟨h1, h2⟩
    exact h2 (h c (List.mem_toFinset.mp h1))
  simp only [is_valid_sequence]
  rw [if_neg (fun hne => hne hempty)]

/-- Claim C7 witness: the round-trip applied at "ACGT". -/
theorem allele_roundtrip_witness :
    is_valid_sequence "ACGT" = Except.ok "ACGT" :=
  allele_roundtrip.1 "ACGT" (by decide)

/-- Claim C8: missing-value coercion sends exactly the tokens "NA" and
"#NA" to the absent value and passes everything else through unchanged,
including the lowercase string "na" and the non-string 0. -/
theorem na_coercion :
    coerce_na_to_none (PyScalar.str "NA") = PyScalar.none
    ∧ coerce_na_to_none (PyScalar.str "#NA") = PyScalar.none
    ∧ coerce_na_to_none (PyScalar.str "na") = PyScalar.str "na"
    ∧ coerce_na_to_none (PyScalar.int 0) = PyScalar.int 0
    ∧ (∀ x : PyScalar, x ≠ PyScalar.str "NA" → x ≠ PyScalar.str "#NA" →
        coerce_na_to_none x = x) := by
  refine ⟨by decide, by decide, by decide, by decide, ?_⟩
  intro x h1 h2
  unfold coerce_na_to_none
  rw [if_neg h1, if_neg h2]

/-- Claim C8 witness: the passthrough branch applied at the non-string 5. -/
theorem na_coercion_witness :
    coerce_na_to_none (PyScalar.int 5) = PyScalar.int 5 :=
  na_coercion.2.2.2.2 (PyScalar.int 5) (by decide) (by decide)

/-- Claim C9: the three function definitions duplicated in _type_funcs.py
agree extensionally with the definitions of the same names in types.py on
every input (the duplicated source text is identical). -/
theorem mirrored_type_funcs_agree :
    (∀ s : String, chromosome_to_integer s = TypeFuncs.chromosome_to_integer s)
    ∧ (∀ s : String, is_valid_sequence s = TypeFuncs.is_valid_sequence s)
    ∧ (∀ x : PyScalar, coerce_na_to_none x = TypeFuncs.coerce_na_to_none x) :=
  ⟨fun _ => rfl, fun _ => rfl, fun _ => rfl⟩

/-- Claim C10: an input whose string form is "7.0" is rejected by
chromosome normalization ("7.0" neither parses as an integer nor appears in
the symbolic map — CPython renders the float 7.0 as exactly this string),
while "7" normalizes to 7; in general every input whose stripped string
form neither parses as an integer nor appears in the symbolic map is
rejected with an error carrying the raw input. -/
theorem float_chromosome_rejected :
    chromosome_to_integer "7.0" = Except.error "Invalid chromosome 7.0"
    ∧ chromosome_to_integer "7" = Except.ok 7
    ∧ (∀ s : String, parsePyInt (pyStrip s) = Option.none →
        CHROMOSOME_MAP (pyStrip s) = Option.none →
        chromosome_to_integer s = Except.error ("Invalid chromosome " ++ s)) :=
  ⟨by decide, by decide, chromosome_unmapped⟩

/-- Claim C10 witness: the general rejection branch applied at "3.5". -/
theorem float_chromosome_rejected_witness :
    chromosome_to_integer "3.5" = Except.error ("Invalid chromosome " ++ "3.5") :=
  float_chromosome_rejected.2.2 "3.5" (by decide) (by decide)
